import Mathlib

/-!
Shallow embedding of the `github-mcp` server (`src/index.ts`): the tool
catalog's call-tool dispatch, the zod argument validator for `gh_repo`, and
the three handlers (`handleRepoAction`, `handlePRAction`,
`handleIssueAction`).  The Octokit API client is modelled as an explicit
collaborator record of response functions; every handler additionally
returns the ordered trace of collaborator calls it issued, so that
call-count properties of the spec can be stated.  A thrown JavaScript
exception is modelled as the `error` branch of `Except`; the two kinds the
source distinguishes (an `McpError` with a protocol error code, versus any
other `Error` such as a `ZodError`) are the two constructors of `Thrown`.
`JSON.stringify(·, null, 2)` is abstracted by renderer functions that emit
the same fields in the same order; no claim depends on the exact
pretty-printing.
-/

namespace GithubMcp

/-- Untyped JSON-like argument values (`args: any` at the handler boundary). -/
inductive JValue where
  | str (s : String)
  | jbool (b : Bool)
  | num (n : Int)
  | jnull
  | arr (elems : List JValue)

/-- An incoming argument object: ordered key/value fields. -/
abbrev JObject := List (String × JValue)

/-- Field lookup in an argument object (first binding wins, as in a JS object). -/
def lookupField (args : JObject) (k : String) : Option JValue :=
  (args.find? (fun p => p.1 == k)).map (fun p => p.2)

/-- The `action` enum of `GitHubActionSchema`:
`z.enum(['list', 'create', 'clone', 'view', 'delete', 'fork'])`. -/
inductive RepoAction where
  | list
  | create
  | clone
  | view
  | delete
  | fork
  deriving DecidableEq, Repr

/-- String form of a `RepoAction`, as interpolated into error messages. -/
def RepoAction.toName : RepoAction → String
  | .list => "list"
  | .create => "create"
  | .clone => "clone"
  | .view => "view"
  | .delete => "delete"
  | .fork => "fork"

/-- The validated parameter shape produced by `GitHubActionSchema.parse`.
Note the zod schema declares `public` merely `.optional()` — no `.default(true)`
— so an absent field parses to `none`, not to `some true`. -/
structure GitHubParams where
  action : RepoAction
  name : Option String
  description : Option String
  public : Option Bool
  clone : Option Bool
  path : Option String
  org : Option String
  deriving DecidableEq, Repr

/-- Parse of one optional `z.string().optional()` field. -/
def parseOptionalString (args : JObject) (k : String) : Except String (Option String) :=
  match lookupField args k with
  | none => .ok none
  | some (JValue.str s) => .ok (some s)
  | some _ => .error (k ++ ": Expected string")

/-- Parse of one optional `z.boolean().optional()` field. -/
def parseOptionalBool (args : JObject) (k : String) : Except String (Option Bool) :=
  match lookupField args k with
  | none => .ok none
  | some (JValue.jbool b) => .ok (some b)
  | some _ => .error (k ++ ": Expected boolean")

/-- Parse of the required `action` enum field. -/
def parseActionField (args : JObject) : Except String RepoAction :=
  match lookupField args "action" with
  | some (JValue.str "list") => .ok .list
  | some (JValue.str "create") => .ok .create
  | some (JValue.str "clone") => .ok .clone
  | some (JValue.str "view") => .ok .view
  | some (JValue.str "delete") => .ok .delete
  | some (JValue.str "fork") => .ok .fork
  | some (JValue.str s) => .error ("action: Invalid enum value " ++ s)
  | some _ => .error "action: Expected string"
  | none => .error "action: Required"

/-- The zod validator `GitHubActionSchema.parse(args)`.  On failure zod throws
a `ZodError` (a plain `Error` subclass, not an `McpError`), modelled as the
`error` branch carrying the issue message. -/
def GitHubActionSchema_parse (args : JObject) : Except String GitHubParams := do
  let action ← parseActionField args
  let name ← parseOptionalString args "name"
  let description ← parseOptionalString args "description"
  let publicField ← parseOptionalBool args "public"
  let cloneField ← parseOptionalBool args "clone"
  let path ← parseOptionalString args "path"
  let org ← parseOptionalString args "org"
  return { action := action, name := name, description := description,
           public := publicField, clone := cloneField, path := path, org := org }

/-- JavaScript truthiness of `!params.name` on an optional string:
`undefined` and the empty string are falsy. -/
def jsFalsyOptStr : Option String → Bool
  | none => true
  | some s => s.isEmpty

/-- JavaScript `!params.public` on an optional boolean: `!undefined` is `true`. -/
def jsNotOptBool : Option Bool → Bool
  | none => true
  | some b => !b

/-- JavaScript `name.includes('/')`, over the character sequence. -/
def includesSlash (s : String) : Bool :=
  s.toList.contains '/'

/-- Split of a character sequence on a separator character; the JS
`split` semantics: the result always has one more element than the number
of separators, so it is never empty. -/
def splitChars (sep : Char) : List Char → List (List Char)
  | [] => [[]]
  | c :: rest =>
    match splitChars sep rest with
    | [] => if c = sep then [[], []] else [[c]]
    | h :: t => if c = sep then [] :: h :: t else (c :: h) :: t

/-- JavaScript `name.split(sep)` for a one-character separator. -/
def jsSplit (s : String) (sep : Char) : List String :=
  (splitChars sep s.toList).map String.mk

/-- One element of a ToolResult `content` sequence. -/
structure TextContent where
  type : String
  text : String
  deriving DecidableEq, Repr

/-- The response envelope every handler returns. -/
structure ToolResult where
  content : List TextContent
  deriving DecidableEq, Repr

/-- Protocol error codes used by the server. -/
inductive ErrorCode where
  | InvalidParams
  | MethodNotFound
  | InternalError
  deriving DecidableEq, Repr

/-- An `McpError`: protocol error code plus message. -/
structure McpError where
  code : ErrorCode
  message : String
  deriving DecidableEq, Repr

/-- A thrown JavaScript exception: either an `McpError`, or any other
`Error` (a `ZodError`, or an error raised by an Octokit call) carrying only
its message. -/
inductive Thrown where
  | mcp (e : McpError)
  | js (message : String)
  deriving DecidableEq, Repr

/-- Repository data as consumed from Octokit responses (the fields the
handlers dereference). -/
structure RepoData where
  full_name : String
  description : Option String
  priv : Bool
  html_url : String
  language : Option String
  stargazers_count : Nat
  updated_at : String
  forks_count : Nat
  open_issues_count : Nat
  created_at : String
  topics : List String
  default_branch : String
  deriving DecidableEq, Repr

/-- Response of `octokit.users.getAuthenticated()`. -/
structure UserData where
  login : String
  deriving DecidableEq, Repr

/-- Response of `octokit.repos.createForAuthenticatedUser(...)`. -/
structure CreateData where
  html_url : String
  deriving DecidableEq, Repr

/-- One outbound collaborator (Octokit) call, with the arguments the source
passes. -/
inductive ApiCall where
  | reposListForAuthenticatedUser (sort : String) (per_page : Nat)
  | reposCreateForAuthenticatedUser (name : String) (description : Option String)
      (priv : Bool) (auto_init : Bool)
  | usersGetAuthenticated
  | reposGet (owner : String) (repo : String)
  deriving DecidableEq, Repr

/-- The Octokit collaborator, as a record of response functions.  An `error`
result models the awaited promise rejecting with an `Error` whose message is
the carried string. -/
structure Octokit where
  reposListForAuthenticatedUser : String → Nat → Except String (List RepoData)
  reposCreateForAuthenticatedUser : String → Option String → Bool → Bool →
    Except String CreateData
  usersGetAuthenticated : Except String UserData
  reposGet : String → String → Except String RepoData

/-- Renderer for one entry of the `list` response (the object literal built
from `data.map(repo => ...)`); `JSON.stringify` formatting abstracted. -/
def renderListEntry (r : RepoData) : String :=
  "\x7bname: " ++ r.full_name ++ ", description: " ++ (r.description.getD "null") ++
  ", private: " ++ (if r.priv then "true" else "false") ++
  ", url: " ++ r.html_url ++ ", language: " ++ (r.language.getD "null") ++
  ", stars: " ++ toString r.stargazers_count ++ ", updated: " ++ r.updated_at ++ "\x7d"

/-- Renderer for the whole `list` response array. -/
def renderRepoList (rs : List RepoData) : String :=
  "[" ++ String.intercalate ", " (rs.map renderListEntry) ++ "]"

/-- Renderer for the `view` response object; same fields, same order as the
source's object literal. -/
def renderRepoView (r : RepoData) : String :=
  "\x7bname: " ++ r.full_name ++ ", description: " ++ (r.description.getD "null") ++
  ", private: " ++ (if r.priv then "true" else "false") ++
  ", url: " ++ r.html_url ++ ", language: " ++ (r.language.getD "null") ++
  ", stars: " ++ toString r.stargazers_count ++
  ", forks: " ++ toString r.forks_count ++
  ", issues: " ++ toString r.open_issues_count ++
  ", created: " ++ r.created_at ++ ", updated: " ++ r.updated_at ++
  ", topics: [" ++ String.intercalate ", " r.topics ++ "]" ++
  ", default_branch: " ++ r.default_branch ++ "\x7d"

/-- Wrap a text payload as the single-text-block ToolResult every handler
builds. -/
def textResult (s : String) : ToolResult :=
  { content := [{ type := "text", text := s }] }

/-- The `handleRepoAction` method: zod-validate, then switch on the action.
Returns the handler outcome together with the ordered trace of collaborator
calls issued. -/
def handleRepoAction (octokit : Octokit) (args : JObject) :
    Except Thrown ToolResult × List ApiCall :=
  match GitHubActionSchema_parse args with
  | .error msg => (.error (.js msg), [])
  | .ok params =>
    match params.action with
    | .list =>
      let call := ApiCall.reposListForAuthenticatedUser "updated" 100
      match octokit.reposListForAuthenticatedUser "updated" 100 with
      | .error m => (.error (.js m), [call])
      | .ok data => (.ok (textResult (renderRepoList data)), [call])
    | .create =>
      if jsFalsyOptStr params.name then
        (.error (.mcp { code := .InvalidParams, message := "Repository name is required" }), [])
      else
        let name := params.name.getD ""
        let priv := jsNotOptBool params.public
        let call := ApiCall.reposCreateForAuthenticatedUser name params.description priv true
        match octokit.reposCreateForAuthenticatedUser name params.description priv true with
        | .error m => (.error (.js m), [call])
        | .ok data => (.ok (textResult ("Repository created: " ++ data.html_url)), [call])
    | .view =>
      if jsFalsyOptStr params.name then
        (.error (.mcp { code := .InvalidParams, message := "Repository name is required" }), [])
      else
        let name := params.name.getD ""
        if includesSlash name then
          let parts := jsSplit name '/'
          let owner := parts.getD 0 ""
          let repo := parts.getD 1 ""
          match octokit.reposGet owner repo with
          | .error m => (.error (.js m), [.reposGet owner repo])
          | .ok data => (.ok (textResult (renderRepoView data)), [.reposGet owner repo])
        else
          match octokit.usersGetAuthenticated with
          | .error m => (.error (.js m), [.usersGetAuthenticated])
          | .ok user =>
            match octokit.reposGet user.login name with
            | .error m => (.error (.js m), [.usersGetAuthenticated, .reposGet user.login name])
            | .ok data =>
              (.ok (textResult (renderRepoView data)),
               [.usersGetAuthenticated, .reposGet user.login name])
    | _ =>
      (.error (.mcp { code := .InvalidParams,
                      message := "Unsupported action: " ++ params.action.toName }), [])

/-- The `handlePRAction` method: ignores its arguments and returns a fixed
placeholder; issues no collaborator call and cannot throw. -/
def handlePRAction (_args : JObject) : ToolResult :=
  textResult "PR action handler not fully implemented yet"

/-- The `handleIssueAction` method: ignores its arguments and returns a fixed
placeholder; issues no collaborator call and cannot throw. -/
def handleIssueAction (_args : JObject) : ToolResult :=
  textResult "Issue action handler not fully implemented yet"

/-- The body of the `try` block of the CallTool request handler: the switch
on the tool name. -/
def dispatchCallTool (octokit : Octokit) (name : String) (args : JObject) :
    Except Thrown ToolResult × List ApiCall :=
  match name with
  | "gh_repo" => handleRepoAction octokit args
  | "gh_pr" => (.ok (handlePRAction args), [])
  | "gh_issue" => (.ok (handleIssueAction args), [])
  | _ => (.error (.mcp { code := .MethodNotFound, message := "Unknown tool: " ++ name }), [])

/-- The full CallTool request handler including its `catch`: an `McpError` is
rethrown unchanged; any other thrown error is rewrapped as `InternalError`
with the original message embedded after the fixed prefix. -/
def callToolRequest (octokit : Octokit) (name : String) (args : JObject) :
    Except McpError ToolResult × List ApiCall :=
  match dispatchCallTool octokit name args with
  | (.ok r, calls) => (.ok r, calls)
  | (.error (.mcp e), calls) => (.error e, calls)
  | (.error (.js m), calls) =>
    (.error { code := .InternalError, message := "GitHub API error: " ++ m }, calls)

/-- A sample repository record for concrete test collaborators. -/
def sampleRepo : RepoData :=
  { full_name := "octocat/hello", description := some "demo", priv := false,
    html_url := "https://example.com/octocat/hello", language := some "TypeScript",
    stargazers_count := 1, updated_at := "2024-01-02", forks_count := 0,
    open_issues_count := 0, created_at := "2023-01-01", topics := [],
    default_branch := "main" }

/-- A collaborator whose every call succeeds. -/
def okOctokit : Octokit :=
  { reposListForAuthenticatedUser := fun _ _ => .ok [sampleRepo],
    reposCreateForAuthenticatedUser := fun _ _ _ _ => .ok { html_url := "https://example.com/new" },
    usersGetAuthenticated := .ok { login := "octocat" },
    reposGet := fun _ _ => .ok sampleRepo }

/-- A collaborator whose repository-get rejects with the given message. -/
def reposGetFailing (m : String) : Octokit :=
  { okOctokit with reposGet := fun _ _ => .error m }

/-- A collaborator whose list call rejects with the given message. -/
def listFailing (m : String) : Octokit :=
  { okOctokit with reposListForAuthenticatedUser := fun _ _ => .error m }

/-- C1: the zod schema gives `public` no default, so with the field absent the
handler computes `private := !undefined = true` and creates a private
repository, contradicting the catalog's declared `default: true` for
`public` (which the claim, and the spec, follow).  First conjunct: the
failing input `{action: "create", name: "demo"}` (no `public`) sends
`private = true` where the claim requires `private = false`.  The remaining
conjuncts record the parts of the claim the code does satisfy: with
`public` supplied, `private = not public`; `auto_init = true` on every
create call. -/
theorem c1_create_default_public_eval :
    (callToolRequest okOctokit "gh_repo"
        [("action", JValue.str "create"), ("name", JValue.str "demo")]).2 =
      [ApiCall.reposCreateForAuthenticatedUser "demo" none true true] ∧
    (callToolRequest okOctokit "gh_repo"
        [("action", JValue.str "create"), ("name", JValue.str "demo"),
         ("public", JValue.jbool true)]).2 =
      [ApiCall.reposCreateForAuthenticatedUser "demo" none false true] ∧
    (callToolRequest okOctokit "gh_repo"
        [("action", JValue.str "create"), ("name", JValue.str "demo"),
         ("public", JValue.jbool false)]).2 =
      [ApiCall.reposCreateForAuthenticatedUser "demo" none true true] :=
  ⟨rfl, rfl, rfl⟩

/-- C2 counterexample: a `gh_repo` invocation with validated action `clone`
does not return a placeholder ToolResult; it throws
`InvalidParams "Unsupported action: clone"` (the `default:` branch of the
action switch), so the claim as stated is false at this input. -/
theorem c2_counterexample :
    callToolRequest okOctokit "gh_repo" [("action", JValue.str "clone")] =
      (.error { code := .InvalidParams, message := "Unsupported action: clone" }, []) ∧
    (callToolRequest okOctokit "gh_repo" [("action", JValue.str "clone")]).1.isOk = false :=
  ⟨rfl, rfl⟩

/-- C2 amended: `gh_pr` and `gh_issue` invocations return the fixed
placeholder text result with no remote action; a `gh_repo` invocation whose
validated action is `clone`, `delete` or `fork` instead fails with
`InvalidParams` ("Unsupported action: ...") and likewise makes no
collaborator call. -/
theorem c2_amended_stub_behavior (oct : Octokit) (args : JObject) :
    (∀ p : GitHubParams, GitHubActionSchema_parse args = .ok p →
      (p.action = .clone ∨ p.action = .delete ∨ p.action = .fork) →
      callToolRequest oct "gh_repo" args =
        (.error { code := .InvalidParams,
                  message := "Unsupported action: " ++ p.action.toName }, [])) ∧
    callToolRequest oct "gh_pr" args =
      (.ok (textResult "PR action handler not fully implemented yet"), []) ∧
    callToolRequest oct "gh_issue" args =
      (.ok (textResult "Issue action handler not fully implemented yet"), []) := by
  refine ⟨?_, rfl, rfl⟩
  intro p hp hact
  have hrepo : dispatchCallTool oct "gh_repo" args = handleRepoAction oct args := rfl
  unfold callToolRequest
  rw [hrepo]
  rcases hact with h | h | h <;> simp [handleRepoAction, hp, h]

/-- C2 witness: concrete instance of the amended repository branch at
action `delete`. -/
theorem c2_witness :
    callToolRequest okOctokit "gh_repo" [("action", JValue.str "delete")] =
      (.error { code := .InvalidParams,
                message := "Unsupported action: " ++ RepoAction.toName .delete }, []) :=
  (c2_amended_stub_behavior okOctokit [("action", JValue.str "delete")]).1
    { action := .delete, name := none, description := none, public := none,
      clone := none, path := none, org := none }
    rfl (Or.inr (Or.inl rfl))

/-- C3 counterexample: at `{action: "destroy"}` the zod parse throws a
`ZodError`, which is not an `McpError`, so the catch-all rewraps it as
`InternalError` — not the `InvalidParams` the claim requires. -/
theorem c3_counterexample :
    callToolRequest okOctokit "gh_repo" [("action", JValue.str "destroy")] =
      (.error { code := .InternalError,
                message := "GitHub API error: action: Invalid enum value destroy" }, []) ∧
    ErrorCode.InternalError ≠ ErrorCode.InvalidParams :=
  ⟨rfl, by decide⟩

/-- C3 amended: a `gh_repo` invocation whose arguments fail the declared
schema (including an undeclared `action` value) makes no collaborator call
and fails with `InternalError` whose message embeds the validation error
message after the fixed `GitHub API error: ` prefix. -/
theorem c3_amended_validation_internal_error (oct : Octokit) (args : JObject) (m : String)
    (h : GitHubActionSchema_parse args = .error m) :
    callToolRequest oct "gh_repo" args =
      (.error { code := .InternalError, message := "GitHub API error: " ++ m }, []) := by
  have hrepo : dispatchCallTool oct "gh_repo" args = handleRepoAction oct args := rfl
  unfold callToolRequest
  rw [hrepo]
  simp [handleRepoAction, h]

/-- C3 witness: the amended theorem applied at the concrete bad action. -/
theorem c3_witness :
    callToolRequest okOctokit "gh_repo" [("action", JValue.str "destroy")] =
      (.error { code := .InternalError,
                message := "GitHub API error: " ++ "action: Invalid enum value destroy" }, []) :=
  c3_amended_validation_internal_error okOctokit [("action", JValue.str "destroy")]
    "action: Invalid enum value destroy" rfl

/-- C4: a `gh_repo` create invocation whose validated parameters carry no
`name` fails with `InvalidParams "Repository name is required"` and the
collaborator call trace is empty, for every collaborator. -/
theorem c4_create_missing_name (oct : Octokit) (args : JObject) (p : GitHubParams)
    (hparse : GitHubActionSchema_parse args = .ok p)
    (hact : p.action = .create) (hname : p.name = none) :
    callToolRequest oct "gh_repo" args =
      (.error { code := .InvalidParams, message := "Repository name is required" }, []) := by
  have hrepo : dispatchCallTool oct "gh_repo" args = handleRepoAction oct args := rfl
  unfold callToolRequest
  rw [hrepo]
  simp [handleRepoAction, hparse, hact, hname, jsFalsyOptStr]

/-- C4 witness: the theorem applied at `{action: "create"}` with no name. -/
theorem c4_witness :
    callToolRequest okOctokit "gh_repo" [("action", JValue.str "create")] =
      (.error { code := .InvalidParams, message := "Repository name is required" }, []) :=
  c4_create_missing_name okOctokit [("action", JValue.str "create")]
    { action := .create, name := none, description := none, public := none,
      clone := none, path := none, org := none }
    rfl rfl rfl

/-- C6: a call-tool request whose tool name is none of `gh_repo`, `gh_pr`,
`gh_issue` fails with `MethodNotFound` and reaches no handler: the result is
the fixed error with an empty collaborator trace, for every collaborator and
every argument object. -/
theorem c6_unknown_tool (oct : Octokit) (name : String) (args : JObject)
    (h1 : name ≠ "gh_repo") (h2 : name ≠ "gh_pr") (h3 : name ≠ "gh_issue") :
    callToolRequest oct name args =
      (.error { code := .MethodNotFound, message := "Unknown tool: " ++ name }, []) := by
  have hd : dispatchCallTool oct name args =
      (.error (.mcp { code := .MethodNotFound, message := "Unknown tool: " ++ name }), []) := by
    unfold dispatchCallTool
    split <;> simp_all
  unfold callToolRequest
  rw [hd]

/-- C6 witness: the theorem applied at the tool name `nonexistent_tool`. -/
theorem c6_witness :
    callToolRequest okOctokit "nonexistent_tool" [] =
      (.error { code := .MethodNotFound, message := "Unknown tool: " ++ "nonexistent_tool" }, []) :=
  c6_unknown_tool okOctokit "nonexistent_tool" []
    (by decide) (by decide) (by decide)

/-- C7: part one — whenever the dispatched handler throws an error that is
not an `McpError` (the `Thrown.js` case, which is how every rejected
collaborator call surfaces), the request fails with `InternalError` whose
message contains the original message text, and the collaborator trace is
passed through.  Part two — a concrete family: if the repository-get call
rejects with an arbitrary message `m` during a view, the caller sees
`InternalError` with `m` embedded. -/
theorem c7_collaborator_error_internal :
    (∀ (oct : Octokit) (name : String) (args : JObject) (m : String) (calls : List ApiCall),
      dispatchCallTool oct name args = (.error (.js m), calls) →
      callToolRequest oct name args =
        (.error { code := .InternalError, message := "GitHub API error: " ++ m }, calls) ∧
      ∃ pre, "GitHub API error: " ++ m = pre ++ m) ∧
    (∀ m : String,
      callToolRequest (reposGetFailing m) "gh_repo"
        [("action", JValue.str "view"), ("name", JValue.str "octocat/hello")] =
      (.error { code := .InternalError, message := "GitHub API error: " ++ m },
       [.reposGet "octocat" "hello"])) := by
  constructor
  · intro oct name args m calls h
    refine ⟨?_, "GitHub API error: ", rfl⟩
    unfold callToolRequest
    rw [h]
  · intro m
    rfl

/-- C7 witness: applied at a collaborator whose list call rejects with the
message `boom`. -/
theorem c7_witness :
    callToolRequest (listFailing "boom") "gh_repo" [("action", JValue.str "list")] =
      (.error { code := .InternalError, message := "GitHub API error: " ++ "boom" },
       [.reposListForAuthenticatedUser "updated" 100]) ∧
    ∃ pre, "GitHub API error: " ++ "boom" = pre ++ "boom" :=
  c7_collaborator_error_internal.1 (listFailing "boom") "gh_repo"
    [("action", JValue.str "list")] "boom"
    [.reposListForAuthenticatedUser "updated" 100] rfl

/-- C5: call trace of a `view` invocation.  With an owner-qualified name
(the name includes a `/`) exactly one collaborator call is made: a
repository-get on the first two split segments, and no identity lookup.
Without a `/`, and with the identity lookup answering `u`, exactly two calls
are made, the identity lookup first, then a repository-get with the resolved
login as owner and the supplied name as repo. -/
theorem c5_view_call_trace (oct : Octokit) (args : JObject) (p : GitHubParams) (n : String)
    (hparse : GitHubActionSchema_parse args = .ok p)
    (hact : p.action = .view) (hname : p.name = some n) (hne : n.isEmpty = false) :
    (includesSlash n = true →
      (callToolRequest oct "gh_repo" args).2 =
        [ApiCall.reposGet ((jsSplit n '/').getD 0 "") ((jsSplit n '/').getD 1 "")]) ∧
    (includesSlash n = false → ∀ u : UserData, oct.usersGetAuthenticated = .ok u →
      (callToolRequest oct "gh_repo" args).2 =
        [ApiCall.usersGetAuthenticated, ApiCall.reposGet u.login n]) := by
  have hrepo : dispatchCallTool oct "gh_repo" args = handleRepoAction oct args := rfl
  constructor
  · intro hinc
    unfold callToolRequest
    rw [hrepo]
    cases hg : oct.reposGet ((jsSplit n '/').getD 0 "") ((jsSplit n '/').getD 1 "") <;>
      simp_all [handleRepoAction, jsFalsyOptStr]
  · intro hinc u hu
    unfold callToolRequest
    rw [hrepo]
    cases hg : oct.reposGet u.login n <;>
      simp_all [handleRepoAction, jsFalsyOptStr]

/-- C5 witness: both branches at concrete inputs — `octocat/hello` issues
one repository-get; `solo` issues the identity lookup and then the
repository-get under the resolved login. -/
theorem c5_witness :
    (callToolRequest okOctokit "gh_repo"
        [("action", JValue.str "view"), ("name", JValue.str "octocat/hello")]).2 =
      [ApiCall.reposGet "octocat" "hello"] ∧
    (callToolRequest okOctokit "gh_repo"
        [("action", JValue.str "view"), ("name", JValue.str "solo")]).2 =
      [ApiCall.usersGetAuthenticated, ApiCall.reposGet "octocat" "solo"] := by
  constructor
  · exact (c5_view_call_trace okOctokit
      [("action", JValue.str "view"), ("name", JValue.str "octocat/hello")]
      { action := .view, name := some "octocat/hello", description := none,
        public := none, clone := none, path := none, org := none }
      "octocat/hello" rfl rfl rfl rfl).1 rfl
  · exact (c5_view_call_trace okOctokit
      [("action", JValue.str "view"), ("name", JValue.str "solo")]
      { action := .view, name := some "solo", description := none,
        public := none, clone := none, path := none, org := none }
      "solo" rfl rfl rfl rfl).2 rfl { login := "octocat" } rfl

/-- Helper for C8: every `ok` outcome of `handleRepoAction` is a single
text block. -/
theorem handleRepoAction_ok_single (oct : Octokit) (args : JObject)
    (r : ToolResult) (calls : List ApiCall)
    (h : handleRepoAction oct args = (.ok r, calls)) :
    ∃ s, r.content = [{ type := "text", text := s }] := by
  unfold handleRepoAction at h
  dsimp only at h
  split at h
  · exact absurd h (by simp)
  · split at h
    · split at h
      · exact absurd h (by simp)
      · obtain ⟨h1, h2⟩ := (Prod.mk.injEq _ _ _ _).mp h
        injection h1 with h1
        subst h1
        exact ⟨_, rfl⟩
    · split at h
      · exact absurd h (by simp)
      · split at h
        · exact absurd h (by simp)
        · obtain ⟨h1, h2⟩ := (Prod.mk.injEq _ _ _ _).mp h
          injection h1 with h1
          subst h1
          exact ⟨_, rfl⟩
    · split at h
      · exact absurd h (by simp)
      · split at h
        · split at h
          · exact absurd h (by simp)
          · obtain ⟨h1, h2⟩ := (Prod.mk.injEq _ _ _ _).mp h
            injection h1 with h1
            subst h1
            exact ⟨_, rfl⟩
        · split at h
          · exact absurd h (by simp)
          · split at h
            · exact absurd h (by simp)
            · obtain ⟨h1, h2⟩ := (Prod.mk.injEq _ _ _ _).mp h
              injection h1 with h1
              subst h1
              exact ⟨_, rfl⟩
    · exact absurd h (by simp)

/-- Helper for C8: every `ok` outcome of the dispatch switch is a single
text block. -/
theorem dispatchCallTool_ok_single (oct : Octokit) (name : String) (args : JObject)
    (r : ToolResult) (calls : List ApiCall)
    (h : dispatchCallTool oct name args = (.ok r, calls)) :
    ∃ s, r.content = [{ type := "text", text := s }] := by
  unfold dispatchCallTool at h
  split at h
  · exact handleRepoAction_ok_single oct args r calls h
  · refine ⟨"PR action handler not fully implemented yet", ?_⟩
    injection h with h1 h2
    injection h1 with h1
    rw [← h1]
    rfl
  · refine ⟨"Issue action handler not fully implemented yet", ?_⟩
    injection h with h1 h2
    injection h1 with h1
    rw [← h1]
    rfl
  · exact absurd h (by simp)

/-- C8: every successfully returned ToolResult — any tool, any action, any
collaborator — has a content sequence of exactly one element, of type
`text`. -/
theorem c8_single_text_block (oct : Octokit) (name : String) (args : JObject)
    (r : ToolResult) (calls : List ApiCall)
    (h : callToolRequest oct name args = (.ok r, calls)) :
    r.content.length = 1 ∧ ∃ s, r.content = [{ type := "text", text := s }] := by
  unfold callToolRequest at h
  split at h
  next t calls' heq =>
    obtain ⟨s, hs⟩ := dispatchCallTool_ok_single oct name args t calls' heq
    obtain ⟨h1, h2⟩ := (Prod.mk.injEq _ _ _ _).mp h
    injection h1 with h1
    subst h1
    exact ⟨by rw [hs]; rfl, ⟨s, hs⟩⟩
  next e calls' heq => exact absurd h (by simp)
  next m calls' heq => exact absurd h (by simp)

/-- C8 witness: the theorem applied at the concrete `gh_pr` result. -/
theorem c8_witness :
    (textResult "PR action handler not fully implemented yet").content.length = 1 ∧
    ∃ s, (textResult "PR action handler not fully implemented yet").content =
      [{ type := "text", text := s }] :=
  c8_single_text_block okOctokit "gh_pr" []
    (textResult "PR action handler not fully implemented yet") [] rfl

/-- C10: a `view` whose name splits into three or more segments silently
uses the first segment as owner and the second as repo: the only
collaborator call is a repository-get on those two segments, every further
segment is discarded, and when that call succeeds the handler returns a
success result (no error is reported for the extra segments). -/
theorem c10_view_extra_segments (oct : Octokit) (args : JObject) (p : GitHubParams)
    (n a b : String) (rest : List String)
    (hparse : GitHubActionSchema_parse args = .ok p)
    (hact : p.action = .view) (hname : p.name = some n)
    (hne : n.isEmpty = false) (hinc : includesSlash n = true)
    (hsplit : jsSplit n '/' = a :: b :: rest) (_hrest : rest ≠ []) :
    (callToolRequest oct "gh_repo" args).2 = [ApiCall.reposGet a b] ∧
    ∀ d : RepoData, oct.reposGet a b = .ok d →
      (callToolRequest oct "gh_repo" args).1 = .ok (textResult (renderRepoView d)) := by
  have hrepo : dispatchCallTool oct "gh_repo" args = handleRepoAction oct args := rfl
  constructor
  · unfold callToolRequest
    rw [hrepo]
    cases hg : oct.reposGet a b <;>
      simp_all [handleRepoAction, jsFalsyOptStr]
  · intro d hd
    unfold callToolRequest
    rw [hrepo]
    simp_all [handleRepoAction, jsFalsyOptStr]

/-- C10 witness: the theorem at the concrete name `a/b/c` — the third
segment `c` is discarded, the repository-get targets `a`/`b`, and the call
succeeds. -/
theorem c10_witness :
    (callToolRequest okOctokit "gh_repo"
        [("action", JValue.str "view"), ("name", JValue.str "a/b/c")]).2 =
      [ApiCall.reposGet "a" "b"] ∧
    (callToolRequest okOctokit "gh_repo"
        [("action", JValue.str "view"), ("name", JValue.str "a/b/c")]).1 =
      .ok (textResult (renderRepoView sampleRepo)) := by
  have h := c10_view_extra_segments okOctokit
    [("action", JValue.str "view"), ("name", JValue.str "a/b/c")]
    { action := .view, name := some "a/b/c", description := none,
      public := none, clone := none, path := none, org := none }
    "a/b/c" "a" "b" ["c"] rfl rfl rfl rfl rfl rfl (by simp)
  exact ⟨h.1, h.2 sampleRepo rfl⟩

/-- C9: the pull-request and issue handlers validate nothing, call no
collaborator, never fail, and return the same constant single-text-block
result for every argument object whatsoever. -/
theorem c9_stub_handlers_constant (oct : Octokit) (args : JObject) :
    callToolRequest oct "gh_pr" args =
      (.ok { content := [{ type := "text",
                           text := "PR action handler not fully implemented yet" }] }, []) ∧
    callToolRequest oct "gh_issue" args =
      (.ok { content := [{ type := "text",
                           text := "Issue action handler not fully implemented yet" }] }, []) :=
  ⟨rfl, rfl⟩

end GithubMcp
